import Mathlib

/-!
Shallow embedding of the SmartZone real-time dashboard client
(`websocket.js`, `map.js`, `ui.js`) and verification of its
specification.

The transport client (`WebSocketClient`) is modelled as a record of the
mutable instance fields of the JS class, together with instrumentation
fields recording externally observable side effects (connections opened,
reconnect timeouts scheduled).  Each JS method becomes a pure state
function, and the browser event loop is modelled by an explicit event
step relation.

The message router (`onMessage` / `addMessageHandler`) is modelled over
an abstract data payload type; a registered handler is an identifier
together with a behaviour function saying, for each payload, whether the
handler returns normally or throws.  Dispatch produces the exact trace
of handler invocations, mirroring the JS `for...of` loop and the
surrounding `try/catch`.

The entity collections of `map.js` (`markers.drivers`,
`markers.requests`, `zonePolygons`) are modelled as insertion-ordered
association lists keyed by the entity identity, which is the standard
shallow embedding of a JS object used as a dictionary.  JS
`Array.prototype.sort` (required stable by the ECMAScript standard) is
modelled by Mathlib's stable `List.insertionSort`.
-/

namespace SmartZone

/-! ### Transport client: `websocket.js`, class `WebSocketClient` -/

/-- State of the `WebSocketClient` JS class.  The fields `socket`,
`isConnected`, `reconnectAttempts`, `maxReconnectAttempts`,
`reconnectDelay` and `pingIntervalActive` embed the instance fields of
the class (`pingIntervalActive` stands for whether the `setInterval`
ping timer is live).  `pendingReconnects` counts reconnect `setTimeout`
callbacks that have been scheduled by `attemptReconnect` but have not
fired yet.  `nextSocketId`, `openedCount` and `totalScheduled` are
instrumentation: fresh ids for `new WebSocket(...)` objects, the total
number of connections opened so far, and the total number of reconnect
timeouts ever scheduled. -/
structure WebSocketClient where
  socket : Option Nat
  isConnected : Bool
  reconnectAttempts : Nat
  maxReconnectAttempts : Nat
  reconnectDelay : ℚ
  pingIntervalActive : Bool
  pendingReconnects : Nat
  nextSocketId : Nat
  openedCount : Nat
  totalScheduled : Nat
deriving DecidableEq, Repr

/-- The `constructor()` of `WebSocketClient`: `socket = null`,
`isConnected = false`, `reconnectAttempts = 0`,
`maxReconnectAttempts = 5`, `reconnectDelay = 1000`. -/
def WebSocketClient.init : WebSocketClient where
  socket := none
  isConnected := false
  reconnectAttempts := 0
  maxReconnectAttempts := 5
  reconnectDelay := 1000
  pingIntervalActive := false
  pendingReconnects := 0
  nextSocketId := 0
  openedCount := 0
  totalScheduled := 0

/-- The `connect()` method: closes the existing socket object if any
(which changes no instance field of the client), then assigns a freshly
constructed `WebSocket` to `this.socket`.  Note that `connect()` touches
no other instance field: in particular it does not modify
`reconnectAttempts` and does not clear any timer. -/
def WebSocketClient.connect (s : WebSocketClient) : WebSocketClient :=
  { s with
    socket := some s.nextSocketId
    nextSocketId := s.nextSocketId + 1
    openedCount := s.openedCount + 1 }

/-- The `onOpen()` handler: `isConnected = true`,
`reconnectAttempts = 0`, and `startPingInterval()` starts the ping
timer. -/
def WebSocketClient.onOpen (s : WebSocketClient) : WebSocketClient :=
  { s with
    isConnected := true
    reconnectAttempts := 0
    pingIntervalActive := true }

/-- The `attemptReconnect()` method.  If `reconnectAttempts >=
maxReconnectAttempts` it gives up and returns without scheduling.
Otherwise it increments `reconnectAttempts` FIRST, computes
`delay = reconnectDelay * 1.5 ^ (reconnectAttempts - 1)` from the
incremented counter, and schedules a `setTimeout` that will run
`connect()` after `delay` milliseconds.  The scheduled delay (if any) is
returned alongside the new state. -/
def WebSocketClient.attemptReconnect (s : WebSocketClient) :
    WebSocketClient × Option ℚ :=
  if s.maxReconnectAttempts ≤ s.reconnectAttempts then
    (s, none)
  else
    let attempts := s.reconnectAttempts + 1
    let delay := s.reconnectDelay * (3 / 2 : ℚ) ^ (attempts - 1)
    ({ s with
        reconnectAttempts := attempts
        pendingReconnects := s.pendingReconnects + 1
        totalScheduled := s.totalScheduled + 1 },
      some delay)

/-- The `onClose(event)` handler: `isConnected = false`, the ping
interval is cleared, and if `event.code !== 1000` it calls
`attemptReconnect()`.  Returns the backoff delay scheduled by that call,
if any. -/
def WebSocketClient.onClose (s : WebSocketClient) (code : Nat) :
    WebSocketClient × Option ℚ :=
  let s1 := { s with isConnected := false, pingIntervalActive := false }
  if code ≠ 1000 then s1.attemptReconnect else (s1, none)

/-- The `disconnect()` method: if a socket exists it is closed with code
1000 and `this.socket = null`; the ping interval is cleared and
`isConnected = false`.  Note that `disconnect()` does not touch the
reconnect `setTimeout` scheduled by `attemptReconnect` (no timer handle
is even stored for it), so `pendingReconnects` is unchanged. -/
def WebSocketClient.disconnect (s : WebSocketClient) : WebSocketClient :=
  let s1 := if s.socket.isSome then { s with socket := none } else s
  { s1 with pingIntervalActive := false, isConnected := false }

/-- A scheduled reconnect `setTimeout` callback fires: the pending
timeout is consumed and the callback body runs `this.connect()`. -/
def WebSocketClient.reconnectTimerFire (s : WebSocketClient) :
    WebSocketClient :=
  WebSocketClient.connect
    { s with pendingReconnects := s.pendingReconnects - 1 }

/-- Events delivered to the client by the browser event loop: an
external `connect()` call, the socket `open` event, the socket `close`
event with its close code, the socket `error` event, an external
`disconnect()` call, and the firing of a scheduled reconnect
timeout. -/
inductive WSEvent where
  | connectCall : WSEvent
  | openEvt : WSEvent
  | closeEvt (code : Nat) : WSEvent
  | errorEvt : WSEvent
  | disconnectCall : WSEvent
  | fireReconnect : WSEvent
deriving DecidableEq, Repr

/-- One step of the event loop.  `openEvt` can only fire on an existing
socket; `fireReconnect` is a no-op unless a reconnect timeout is
actually pending.  `onError` only updates the status UI element, so it
changes no modelled field. -/
def WebSocketClient.step (s : WebSocketClient) : WSEvent → WebSocketClient
  | .connectCall => s.connect
  | .openEvt => if s.socket.isSome then s.onOpen else s
  | .closeEvt code => (s.onClose code).1
  | .errorEvt => s
  | .disconnectCall => s.disconnect
  | .fireReconnect =>
      if 0 < s.pendingReconnects then s.reconnectTimerFire else s

/-- Run a sequence of events from a client state. -/
def WebSocketClient.run (s : WebSocketClient) (evs : List WSEvent) :
    WebSocketClient :=
  evs.foldl WebSocketClient.step s

/-- Successive failed reconnect attempts: call `attemptReconnect` up to
`n` times in a row, collecting the scheduled backoff delays, and
stopping as soon as an attempt declines to schedule. -/
def runReconnects : WebSocketClient → Nat → List ℚ
  | _, 0 => []
  | s, n + 1 =>
    match s.attemptReconnect with
    | (s1, some d) => d :: runReconnects s1 n
    | (_, none) => []

/-! ### Message router: `websocket.js`, `onMessage` / `addMessageHandler` -/

/-- A registered message handler over an abstract payload type `D`: an
identifier (its registration identity) and a behaviour function —
`ok d = true` means the handler returns normally when invoked with
payload `d`, `ok d = false` means it throws. -/
structure MessageHandler (D : Type) where
  id : Nat
  ok : D → Bool

/-- The `this.handlers` object built by the `WebSocketClient`
constructor: exactly the three keys `driver_updates`, `zone_updates`
and `request_updates`, each holding a (growable) array of handlers. -/
structure Handlers (D : Type) where
  driver_updates : List (MessageHandler D)
  zone_updates : List (MessageHandler D)
  request_updates : List (MessageHandler D)

/-- The handlers object as initialized by the constructor: three empty
arrays. -/
def Handlers.init (D : Type) : Handlers D where
  driver_updates := []
  zone_updates := []
  request_updates := []

/-- Property names that every plain object literal inherits from
`Object.prototype` (plus the Annex B accessors present in browsers).
The JS `in` operator consults the whole prototype chain, so
`name in this.handlers` is `true` for these names even though the
constructor never created them as own keys; the inherited property
value is a function (or, for `__proto__`, an object), never a handler
array. -/
def objectPrototypeKeys : List String :=
  ["constructor", "hasOwnProperty", "isPrototypeOf",
    "propertyIsEnumerable", "toLocaleString", "toString", "valueOf",
    "__proto__", "__defineGetter__", "__defineSetter__",
    "__lookupGetter__", "__lookupSetter__"]

/-- The value of a property access `this.handlers[t]` for a name `t`
that passes the `t in this.handlers` test: one of the three own keys of
the dictionary yields its handler array; a name inherited from
`Object.prototype` yields the inherited function/object, which is not
an array (`ownArray` vs `protoProp`). -/
inductive HandlersProp (D : Type) where
  | ownArray (l : List (MessageHandler D)) : HandlersProp D
  | protoProp : HandlersProp D

/-- The test `t in this.handlers` together with the access
`this.handlers[t]`: `in` succeeds for the three own keys created by the
constructor (yielding the corresponding handler array) and for the
property names inherited from `Object.prototype` (yielding a non-array
value); it fails for every other name. -/
def Handlers.lookup {D : Type} (hs : Handlers D) (t : String) :
    Option (HandlersProp D) :=
  if t = "driver_updates" then some (.ownArray hs.driver_updates)
  else if t = "zone_updates" then some (.ownArray hs.zone_updates)
  else if t = "request_updates" then some (.ownArray hs.request_updates)
  else if t ∈ objectPrototypeKeys then some .protoProp
  else none

/-- The `addMessageHandler(type, handler)` method:
`if (type in this.handlers) this.handlers[type].push(handler)`.
For one of the three own keys the guard succeeds and the handler is
appended to the array.  For a name inherited from `Object.prototype`
(`toString`, `valueOf`, `hasOwnProperty`, ...) the `in` guard ALSO
succeeds, but the inherited property is not an array, so its `.push`
is `undefined` and the call throws a `TypeError`; the method has no
`try/catch`, so the exception escapes (`Except.error`) and the registry
is unchanged.  For every other name the guard fails and nothing
happens. -/
def Handlers.addMessageHandler {D : Type} (hs : Handlers D) (t : String)
    (h : MessageHandler D) : Except String (Handlers D) :=
  if t = "driver_updates" then
    .ok { hs with driver_updates := hs.driver_updates ++ [h] }
  else if t = "zone_updates" then
    .ok { hs with zone_updates := hs.zone_updates ++ [h] }
  else if t = "request_updates" then
    .ok { hs with request_updates := hs.request_updates ++ [h] }
  else if t ∈ objectPrototypeKeys then
    .error "TypeError"
  else
    .ok hs

/-- A raw inbound frame: either its text is not valid JSON
(`JSON.parse` throws), or it parses to an envelope with a `type` string
and a `data` payload. -/
inductive RawFrame (D : Type) where
  | malformed (raw : String) : RawFrame D
  | parsed (type : String) (data : D) : RawFrame D

/-- The `for (const handler of this.handlers[message.type])` dispatch
loop.  Each handler in turn is invoked with the frame's data payload
(recorded as `(handler.id, d)` in the returned trace); if the
invocation throws (`ok d = false`), the exception aborts the loop and
propagates to the enclosing `try/catch`.  Returns the invocation trace
and whether an exception was raised (and hence caught by `onMessage`'s
`catch`). -/
def runHandlers {D : Type} : List (MessageHandler D) → D →
    List (Nat × D) × Bool
  | [], _ => ([], false)
  | h :: rest, d =>
    if h.ok d then
      let res := runHandlers rest d
      ((h.id, d) :: res.1, res.2)
    else
      ([(h.id, d)], true)

/-- The `onMessage(event)` handler.  The whole body runs inside
`try { ... } catch (error) { console.error(...) }`, so no exception ever
propagates out of `onMessage`; the returned `Bool` records whether the
`catch` branch ran.  A malformed frame throws at `JSON.parse` before
any dispatch; a `pong` envelope returns early; a type that fails the
`in` test dispatches nothing; for a type that names an inherited
`Object.prototype` property, the `in` test succeeds but the `for...of`
loop over the non-iterable inherited value throws a `TypeError`, which
the `catch` swallows before any handler is invoked. -/
def onMessage {D : Type} (hs : Handlers D) (f : RawFrame D) :
    List (Nat × D) × Bool :=
  match f with
  | .malformed _ => ([], true)
  | .parsed t d =>
    if t = "pong" then ([], false)
    else
      match hs.lookup t with
      | some (.ownArray l) => runHandlers l d
      | some .protoProp => ([], true)
      | none => ([], false)

/-- Processing of a stream of inbound frames: the registry is never
mutated by dispatch, and each frame is processed by its own `onMessage`
call, so the result for each frame is independent of every other
frame. -/
def processFrames {D : Type} (hs : Handlers D) (fs : List (RawFrame D)) :
    List (List (Nat × D) × Bool) :=
  fs.map (onMessage hs)

/-! ### Entity collections: `map.js`, class `MapController` -/

/-- A driver entity, as carried by `driver_updates` messages and stored
(as a rendered marker) in `this.markers.drivers`.  The marker keeps the
driver's position (`setLatLng`), status and heading (`setIcon`); we
model the marker as storing the whole driver record. -/
structure Driver where
  id : String
  status : String
  lat : ℚ
  lon : ℚ
  heading : Int
deriving DecidableEq, Repr

/-- A demand zone entity, as carried by `zone_updates` messages and
rendered as a polygon in `this.zonePolygons`. -/
structure Zone where
  zone_id : String
  demand_level : Int
  is_surge : Bool
deriving DecidableEq, Repr

/-- A ride request entity, as carried by `request_updates` messages and
rendered as a pickup marker in `this.markers.requests`. -/
structure Request where
  id : String
  status : String
  created_at : Int
deriving DecidableEq, Repr

/-- Assignment `obj[k] = v` on a JS object used as a dictionary,
modelled on an insertion-ordered association list: an existing key keeps
its position and gets the new value; a new key is appended at the
end. -/
def assignKey {β : Type} : List (String × β) → String → β →
    List (String × β)
  | [], k, v => [(k, v)]
  | p :: rest, k, v =>
    if p.1 = k then (k, v) :: rest else p :: assignKey rest k v

/-- The `updateDrivers(driversData)` method: for each driver in the
message, if a marker for `driver.id` exists it is updated in place
(position, icon, popup), otherwise a new marker is created and stored
under `driver.id`.  Markers for drivers absent from the message are not
touched. -/
def updateDrivers (markers : List (String × Driver))
    (drivers : List Driver) : List (String × Driver) :=
  drivers.foldl (fun acc d => assignKey acc d.id d) markers

/-- Update-in-place of one zone polygon, from `updateZones`:
`const polygon = this.zonePolygons[zone.zone_id]; if (polygon) ...` —
the polygon's style and popup are updated only when it already exists;
no polygon is ever created or removed. -/
def updateZonePoly : List (String × Zone) → Zone → List (String × Zone)
  | [], _ => []
  | p :: rest, z =>
    if p.1 = z.zone_id then (z.zone_id, z) :: rest
    else p :: updateZonePoly rest z

/-- The `updateZones(zonesData)` method, restricted to its effect on the
`this.zonePolygons` collection. -/
def updateZones (polys : List (String × Zone)) (zones : List Zone) :
    List (String × Zone) :=
  zones.foldl updateZonePoly polys

/-- The allowed statuses of the active filter:
`['pending', 'accepted', 'in_progress']`. -/
def activeStatuses : List String := ["pending", "accepted", "in_progress"]

/-- Membership test `['pending', 'accepted', 'in_progress'].includes(status)`. -/
def isActiveStatus (st : String) : Bool := activeStatuses.contains st

/-- The `updateRequests(requestsData)` method: the marker collection is
cleared (`this.markers.requests = {}`) and then repopulated from
scratch with one marker per carried request whose status passes the
active filter.  The previous collection (`markers`) is discarded
entirely. -/
def updateRequests (markers : List (String × Request))
    (requests : List Request) : List (String × Request) :=
  (requests.filter (fun r => isActiveStatus r.status)).foldl
    (fun acc r => assignKey acc r.id r) []

/-- The active-filter projection of `updateRequestList` (and of the
marker loop in `updateRequests`):
`requests.filter(req => ['pending','accepted','in_progress'].includes(req.status))`. -/
def filterActiveRequests (requests : List Request) : List Request :=
  requests.filter (fun r => isActiveStatus r.status)

/-! ### Zone projections: `ui.js updateZoneStats`, `map.js updateSurgeList` -/

/-- The ordering used by the JS comparator
`(a, b) => b.demand_level - a.demand_level`: `a` sorts no later than `b`
when `b.demand_level ≤ a.demand_level` (descending by demand). -/
def demandDesc (a b : Zone) : Prop := b.demand_level ≤ a.demand_level

instance : DecidableRel demandDesc := fun a b =>
  inferInstanceAs (Decidable (b.demand_level ≤ a.demand_level))

instance : IsTotal Zone demandDesc :=
  ⟨fun a b => le_total b.demand_level a.demand_level⟩

instance : IsTrans Zone demandDesc :=
  ⟨fun _ _ _ h1 h2 => le_trans h2 h1⟩

/-- The JS `Array.prototype.sort` call with the descending-by-demand
comparator.  ECMAScript requires `sort` to be stable, so it is modelled
by a stable sort with respect to `demandDesc`. -/
def sortByDemandDesc (zones : List Zone) : List Zone :=
  List.insertionSort demandDesc zones

/-- The top-N-by-demand projection: sort descending by `demand_level`
(stable) and take the first `n`, as in
`[...zonesData.zones].sort((a, b) => b.demand_level - a.demand_level)`
followed by `.slice(0, n)`. -/
def topNZonesByDemand (n : Nat) (zones : List Zone) : List Zone :=
  (sortByDemandDesc zones).take n

/-- The zone-statistics projection of `updateZoneStats` in `ui.js`: the
top 10 zones by demand level. -/
def updateZoneStatsTop (zones : List Zone) : List Zone :=
  topNZonesByDemand 10 zones

/-- The surge-list projection of `updateSurgeList` in `map.js`: filter
for surge zones, then sort descending by demand level. -/
def updateSurgeList (zones : List Zone) : List Zone :=
  sortByDemandDesc (zones.filter (fun z => z.is_surge))

/-! ### Helper lemmas on the dictionary model -/

/-- Lookup after a JS property assignment: the assigned key now maps to
the assigned value and every other key is unaffected. -/
theorem assignKey_lookup {β : Type} (m : List (String × β)) (k : String)
    (v : β) (k' : String) :
    (assignKey m k v).lookup k' = if k' = k then some v else m.lookup k' := by
  induction m with
  | nil =>
    by_cases h : k' = k
    · subst h; simp [assignKey, List.lookup]
    · have hb : (k' == k) = false := beq_eq_false_iff_ne.mpr h
      simp [assignKey, List.lookup, hb, h]
  | cons p rest ih =>
    obtain ⟨pk, pv⟩ := p
    by_cases h1 : pk = k
    · subst h1
      by_cases h2 : k' = pk
      · subst h2; simp [assignKey, List.lookup]
      · have hb : (k' == pk) = false := beq_eq_false_iff_ne.mpr h2
        simp [assignKey, List.lookup, hb, h2]
    · by_cases h2 : k' = pk
      · subst h2
        have h3 : ¬k' = k := h1
        simp [assignKey, h1, List.lookup, h3]
      · have hb2 : (k' == pk) = false := beq_eq_false_iff_ne.mpr h2
        by_cases h3 : k' = k
        · subst h3
          simp [assignKey, h1, List.lookup, hb2, ih]
        · simp [assignKey, h1, List.lookup, hb2, h3, ih]

/-- A fold of JS property assignments leaves every key that is not
assigned by the fold untouched. -/
theorem foldl_assign_lookup_of_not_mem {β : Type} (key : β → String)
    (xs : List β) (m : List (String × β)) (k : String)
    (hk : k ∉ xs.map key) :
    ((xs.foldl (fun acc x => assignKey acc (key x) x) m).lookup k) =
      m.lookup k := by
  induction xs generalizing m with
  | nil => rfl
  | cons x xs ih =>
    have hx : k ≠ key x := by
      intro h
      exact hk (by simp [h])
    have hxs : k ∉ xs.map key := by
      intro h
      exact hk (by simp [h])
    simp [List.foldl_cons, ih _ hxs, assignKey_lookup, hx]

/-- A fold of JS property assignments never deletes a key: a key present
before the fold is still present after it. -/
theorem foldl_assign_lookup_isSome {β : Type} (key : β → String)
    (xs : List β) (m : List (String × β)) (k : String)
    (h : (m.lookup k).isSome) :
    (((xs.foldl (fun acc x => assignKey acc (key x) x) m).lookup k)).isSome := by
  induction xs generalizing m with
  | nil => exact h
  | cons x xs ih =>
    refine ih _ ?_
    rw [assignKey_lookup]
    by_cases hk : k = key x <;> simp [hk, h]

/-- Updating one zone polygon in place never changes the key set of the
polygon collection. -/
theorem updateZonePoly_keys (m : List (String × Zone)) (z : Zone) :
    (updateZonePoly m z).map Prod.fst = m.map Prod.fst := by
  induction m with
  | nil => rfl
  | cons p rest ih =>
    by_cases h : p.1 = z.zone_id <;> simp [updateZonePoly, h, ih]

/-- `updateZones` never changes the key set of the polygon
collection. -/
theorem updateZones_keys (m : List (String × Zone)) (zs : List Zone) :
    (updateZones m zs).map Prod.fst = m.map Prod.fst := by
  induction zs generalizing m with
  | nil => rfl
  | cons z zs ih =>
    simp [updateZones, List.foldl_cons] at ih ⊢
    rw [ih, updateZonePoly_keys]

/-! ### Claim C1 -/

/-- Claim C1 as stated is false on the code: `updateDrivers` is a patch,
not a full-state replacement.  With the marker collection holding driver
`d1` and an inbound `driver_updates` message carrying only driver `d2`,
after processing the collection still contains `d1`, an entity present
before the message and absent from it. -/
theorem C1_counterexample :
    (updateDrivers [("d1", ⟨"d1", "available", 0, 0, 0⟩)]
        [⟨"d2", "busy", 1, 1, 90⟩]).lookup "d1" =
      some ⟨"d1", "available", 0, 0, 0⟩ ∧
    "d1" ∉ ([⟨"d2", "busy", 1, 1, 90⟩] : List Driver).map Driver.id := by
  constructor
  · rfl
  · decide

/-- Claim C1 (amended): only `request_updates` is applied as a
full-state replacement — after `updateRequests`, any identity not
carried by the message is absent from the request collection.
`driver_updates` is applied as an upsert patch: an identity not carried
by the message keeps exactly its previous marker.  `zone_updates`
updates entities in place only: the key set of the zone collection is
unchanged, so it neither adds nor removes entities. -/
theorem C1_amended_theorem :
    (∀ (m : List (String × Request)) (rs : List Request) (k : String),
        k ∉ rs.map Request.id → (updateRequests m rs).lookup k = none) ∧
    (∀ (m : List (String × Driver)) (ds : List Driver) (k : String),
        k ∉ ds.map Driver.id →
          (updateDrivers m ds).lookup k = m.lookup k) ∧
    (∀ (m : List (String × Zone)) (zs : List Zone),
        (updateZones m zs).map Prod.fst = m.map Prod.fst) := by
  refine ⟨?_, ?_, fun m zs => updateZones_keys m zs⟩
  · intro m rs k hk
    have hk2 : k ∉ (rs.filter (fun r => isActiveStatus r.status)).map
        Request.id := by
      intro hmem
      apply hk
      simp only [List.mem_map] at hmem ⊢
      obtain ⟨r, hr, hrk⟩ := hmem
      exact ⟨r, (List.mem_filter.mp hr).1, hrk⟩
    simpa [updateRequests] using
      foldl_assign_lookup_of_not_mem Request.id _ [] k hk2
  · intro m ds k hk
    simpa [updateDrivers] using
      foldl_assign_lookup_of_not_mem Driver.id ds m k hk

/-- Concrete instantiation of the amended claim C1. -/
theorem C1_amended_witness :
    (updateRequests [("r0", ⟨"r0", "pending", 0⟩)]
        [⟨"r1", "pending", 1⟩]).lookup "r0" = none ∧
    (updateDrivers [("d1", ⟨"d1", "available", 0, 0, 0⟩)]
        [⟨"d2", "busy", 1, 1, 90⟩]).lookup "d1" =
      List.lookup "d1" [("d1", ⟨"d1", "available", 0, 0, 0⟩)] ∧
    (updateZones [("z1", ⟨"z1", 3, false⟩)] [⟨"z2", 9, true⟩]).map
        Prod.fst =
      List.map Prod.fst [("z1", (⟨"z1", 3, false⟩ : Zone))] :=
  ⟨C1_amended_theorem.1 _ _ _ (by decide),
    C1_amended_theorem.2.1 _ _ _ (by decide),
    C1_amended_theorem.2.2 _ _⟩

/-! ### Claim C2 -/

/-- Claim C2 as stated is false on the code: the dispatch loop runs
inside a single `try` block, so a handler that throws aborts the loop
and the handlers registered after it are NOT invoked for that frame.
With two handlers registered for `driver_updates`, the first of which
throws, the invocation trace of the frame contains only the first
handler; the second handler is never invoked with the frame's data
payload. -/
theorem C2_counterexample :
    onMessage
      { driver_updates := [⟨0, fun _ => false⟩, ⟨1, fun _ => true⟩],
        zone_updates := [], request_updates := [] }
      (RawFrame.parsed "driver_updates" (7 : Nat)) = ([(0, 7)], true) ∧
    (1, 7) ∉ (onMessage
      { driver_updates := [⟨0, fun _ => false⟩, ⟨1, fun _ => true⟩],
        zone_updates := [], request_updates := [] }
      (RawFrame.parsed "driver_updates" (7 : Nat))).1 := by
  exact ⟨rfl, by decide⟩

/-- Claim C2 (amended): if every handler before the k-th returns
normally and the k-th handler throws, the invocation trace for that
frame is exactly the handlers up to and including the k-th — the
handlers registered after the k-th are not invoked — and the exception
is caught inside `onMessage` (recorded by the `true` flag), so the
processing of every other frame of the stream is unaffected: the result
for the frame at any position of the stream is exactly `onMessage` of
that frame, independent of all other frames. -/
theorem C2_amended_theorem {D : Type} :
    (∀ (pre : List (MessageHandler D)) (h : MessageHandler D)
        (post : List (MessageHandler D)) (d : D),
        (∀ h' ∈ pre, h'.ok d = true) → h.ok d = false →
        runHandlers (pre ++ h :: post) d =
          (pre.map (fun h' => (h'.id, d)) ++ [(h.id, d)], true)) ∧
    (∀ (hs : Handlers D) (fs1 : List (RawFrame D)) (f : RawFrame D)
        (fs2 : List (RawFrame D)),
        (processFrames hs (fs1 ++ f :: fs2))[fs1.length]? =
          some (onMessage hs f)) := by
  constructor
  · intro pre h post d hpre hthrow
    induction pre with
    | nil => simp [runHandlers, hthrow]
    | cons h0 pre ih =>
      have h0ok : h0.ok d = true := hpre h0 (by simp)
      have hpre2 : ∀ h' ∈ pre, h'.ok d = true := fun h' hm =>
        hpre h' (by simp [hm])
      simp [runHandlers, h0ok, ih hpre2]
  · intro hs fs1 f fs2
    rw [processFrames, List.map_append, List.map_cons,
      List.getElem?_append_right (by simp)]
    simp

/-- Concrete instantiation of the amended claim C2: a three-handler
registration where the middle handler throws, and the second frame of a
two-frame stream. -/
theorem C2_amended_witness :
    runHandlers
      ([⟨2, fun _ => true⟩] ++ ⟨3, fun _ => false⟩ :: [⟨4, fun _ => true⟩])
      (5 : Nat) =
      (List.map (fun h' => (h'.id, 5))
        [(⟨2, fun _ => true⟩ : MessageHandler Nat)] ++ [(3, 5)], true) ∧
    (processFrames (Handlers.init Nat)
        ([RawFrame.malformed "bad"] ++
          RawFrame.parsed "pong" (1 : Nat) :: []))[
      ([RawFrame.malformed "bad"] : List (RawFrame Nat)).length]? =
      some (onMessage (Handlers.init Nat) (RawFrame.parsed "pong" 1)) :=
  ⟨C2_amended_theorem.1 [⟨2, fun _ => true⟩] ⟨3, fun _ => false⟩
      [⟨4, fun _ => true⟩] 5 (by intro h' hm; simp at hm; simp [hm]) rfl,
    C2_amended_theorem.2 (Handlers.init Nat) [RawFrame.malformed "bad"]
      (RawFrame.parsed "pong" 1) []⟩

/-! ### Claim C3 -/

/-- Claim C3 as stated is false on the code: `disconnect()` does not
cancel the reconnect `setTimeout` (it only closes the socket and clears
the ping interval), so a reconnect scheduled before a manual
`disconnect()` is not a no-op when it fires — it runs `connect()` and
opens a new connection with no external `connect()` call.  Concretely:
connect, open, non-clean close (schedules a reconnect), manual
disconnect; the pending reconnect survives, and when it fires the
client holds a fresh open socket and has opened a second connection. -/
theorem C3_counterexample :
    ((WebSocketClient.init.run
        [.connectCall, .openEvt, .closeEvt 1006,
          .disconnectCall]).pendingReconnects = 1) ∧
    ((WebSocketClient.init.run
        [.connectCall, .openEvt, .closeEvt 1006,
          .disconnectCall]).socket = none) ∧
    ((WebSocketClient.init.run
        [.connectCall, .openEvt, .closeEvt 1006, .disconnectCall,
          .fireReconnect]).socket.isSome = true) ∧
    ((WebSocketClient.init.run
        [.connectCall, .openEvt, .closeEvt 1006, .disconnectCall,
          .fireReconnect]).openedCount = 2) :=
  ⟨rfl, rfl, rfl, rfl⟩

/-- Claim C3 (amended): `disconnect()` leaves any pending reconnect
timer in place (the pending-reconnect count is unchanged), and if a
reconnect is pending when `disconnect()` is invoked, the timer firing
afterwards runs `connect()`: the client ends up holding a socket again
and the number of opened connections grows by one, without any external
`connect()` call. -/
theorem C3_amended_theorem :
    ∀ s : WebSocketClient,
      s.disconnect.pendingReconnects = s.pendingReconnects ∧
      (0 < s.pendingReconnects →
        (s.disconnect.step .fireReconnect).socket.isSome = true ∧
        (s.disconnect.step .fireReconnect).openedCount =
          s.openedCount + 1) := by
  intro s
  have hd : s.disconnect.pendingReconnects = s.pendingReconnects := by
    by_cases h : s.socket.isSome <;> simp [WebSocketClient.disconnect, h]
  refine ⟨hd, fun hp => ?_⟩
  have hp2 : 0 < s.disconnect.pendingReconnects := by rw [hd]; exact hp
  by_cases h : s.socket.isSome <;>
    simp [WebSocketClient.step, WebSocketClient.disconnect, h,
      WebSocketClient.reconnectTimerFire, WebSocketClient.connect,
      hp] at hp2 ⊢

/-- Concrete instantiation of the amended claim C3. -/
theorem C3_amended_witness :
    ({ WebSocketClient.init with
        pendingReconnects := 1 }.disconnect.pendingReconnects = 1) ∧
    (({ WebSocketClient.init with
        pendingReconnects := 1 }.disconnect.step
          .fireReconnect).socket.isSome = true) :=
  ⟨(C3_amended_theorem _).1,
    ((C3_amended_theorem _).2 (by decide)).1⟩

/-! ### Claim C4 -/

/-- Claim C4 as stated is false on the code: `connect()` never touches
`reconnectAttempts` — only `onOpen()` (a successful establishment)
resets it to 0.  Concretely: after connecting and then suffering five
non-clean closes, the attempt counter is 5 (the ceiling); re-invoking
`connect()` leaves it at 5, not 0. -/
theorem C4_counterexample :
    ((WebSocketClient.init.run
        (WSEvent.connectCall ::
          List.replicate 5 (WSEvent.closeEvt 1006))).reconnectAttempts
      = 5) ∧
    ((WebSocketClient.init.run
        ((WSEvent.connectCall ::
          List.replicate 5 (WSEvent.closeEvt 1006)) ++
          [WSEvent.connectCall])).reconnectAttempts = 5) :=
  ⟨rfl, rfl⟩

/-- Claim C4 (amended): `connect()` leaves the reconnect-attempt
counter unchanged in every state; the counter is reset to 0 only when
the new connection is successfully established (the socket `open`
event, handled by `onOpen`).  So after the client has given up at the
ceiling, re-invoking `connect()` restores the attempt budget only if
the new connection attempt succeeds. -/
theorem C4_amended_theorem :
    ∀ s : WebSocketClient,
      s.connect.reconnectAttempts = s.reconnectAttempts ∧
      s.onOpen.reconnectAttempts = 0 ∧
      (s.socket.isSome = true →
        (s.step .openEvt).reconnectAttempts = 0) := by
  intro s
  refine ⟨rfl, rfl, fun h => ?_⟩
  simp [WebSocketClient.step, h, WebSocketClient.onOpen]

/-- Concrete instantiation of the amended claim C4, at a freshly
connected client. -/
theorem C4_amended_witness :
    WebSocketClient.init.connect.connect.reconnectAttempts =
      WebSocketClient.init.connect.reconnectAttempts ∧
    (WebSocketClient.init.connect.step .openEvt).reconnectAttempts = 0 :=
  ⟨(C4_amended_theorem WebSocketClient.init.connect).1,
    (C4_amended_theorem WebSocketClient.init.connect).2.2 rfl⟩

/-! ### Claim C5 -/

/-- Claim C5: starting a run of consecutive failed reconnects with the
attempt counter at 0 (and the constructor's `maxReconnectAttempts = 5`,
`reconnectDelay = 1000`), the backoff delays scheduled for attempts
1..5 are exactly `1000 * 1.5 ^ (n - 1)` milliseconds, i.e.
`1000, 1500, 2250, 3375, 5062.5`; the counter is incremented before the
delay is computed (hence the exponent `n - 1` for the n-th attempt), no
jitter is added, and a sixth consecutive attempt schedules nothing. -/
theorem C5_backoff_delays :
    ∀ s : WebSocketClient,
      s.maxReconnectAttempts = 5 → s.reconnectDelay = 1000 →
      s.reconnectAttempts = 0 →
      runReconnects s 5 = [1000, 1500, 2250, 3375, 10125 / 2] ∧
      runReconnects s 6 = [1000, 1500, 2250, 3375, 10125 / 2] := by
  intro s h5 hbase h0
  constructor <;>
    · simp only [runReconnects, WebSocketClient.attemptReconnect, h5,
        hbase, h0]
      norm_num

/-- Concrete instantiation of claim C5 at the constructor state. -/
theorem C5_backoff_witness :
    runReconnects WebSocketClient.init 5 =
      [1000, 1500, 2250, 3375, 10125 / 2] ∧
    runReconnects WebSocketClient.init 6 =
      [1000, 1500, 2250, 3375, 10125 / 2] :=
  C5_backoff_delays WebSocketClient.init rfl rfl rfl

/-! ### Claim C6 -/

/-- Helper: a step of any event other than a successful `open` neither
schedules a new reconnect nor lowers the attempt counter, once the
counter has reached the ceiling of 5. -/
theorem step_no_open_no_schedule (s : WebSocketClient) (e : WSEvent)
    (h5 : s.maxReconnectAttempts = 5) (hat : 5 ≤ s.reconnectAttempts)
    (he : e ≠ WSEvent.openEvt) :
    (s.step e).totalScheduled = s.totalScheduled ∧
    (s.step e).maxReconnectAttempts = 5 ∧
    5 ≤ (s.step e).reconnectAttempts := by
  cases e with
  | connectCall =>
    simp [WebSocketClient.step, WebSocketClient.connect, h5, hat]
  | openEvt => exact absurd rfl he
  | closeEvt code =>
    by_cases hc : code ≠ 1000 <;>
      simp [WebSocketClient.step, WebSocketClient.onClose,
        WebSocketClient.attemptReconnect, h5, hat, hc]
  | errorEvt => exact ⟨rfl, h5, hat⟩
  | disconnectCall =>
    by_cases hs : s.socket.isSome <;>
      simp [WebSocketClient.step, WebSocketClient.disconnect, hs, h5, hat]
  | fireReconnect =>
    by_cases hp : 0 < s.pendingReconnects <;>
      simp [WebSocketClient.step, WebSocketClient.reconnectTimerFire,
        WebSocketClient.connect, hp, h5, hat]

/-- Claim C6: on a transport close event, a reconnect is scheduled if
and only if the close code is not 1000 and fewer than 5 reconnect
attempts have been made (so close code 1000 never schedules one); and
once the counter has reached 5, no later event of any kind — except a
successful establishment, which resets the counter — ever schedules
another reconnect (the total number of reconnects ever scheduled stays
constant along any `open`-free event sequence). -/
theorem C6_close_schedules_iff :
    (∀ (s : WebSocketClient) (code : Nat),
        s.maxReconnectAttempts = 5 →
        (((s.onClose code).2).isSome ↔
          code ≠ 1000 ∧ s.reconnectAttempts < 5)) ∧
    (∀ (s : WebSocketClient) (evs : List WSEvent),
        s.maxReconnectAttempts = 5 → 5 ≤ s.reconnectAttempts →
        WSEvent.openEvt ∉ evs →
        (s.run evs).totalScheduled = s.totalScheduled) := by
  constructor
  · intro s code h5
    by_cases hc : code ≠ 1000
    · by_cases hat : s.reconnectAttempts < 5
      · have : ¬ (5 ≤ s.reconnectAttempts) := by omega
        simp [WebSocketClient.onClose, WebSocketClient.attemptReconnect,
          hc, h5, this, hat]
      · have : 5 ≤ s.reconnectAttempts := by omega
        simp [WebSocketClient.onClose, WebSocketClient.attemptReconnect,
          hc, h5, this, hat]
    · simp [WebSocketClient.onClose, hc]
  · intro s evs h5 hat hno
    induction evs generalizing s with
    | nil => rfl
    | cons e evs ih =>
      have he : e ≠ WSEvent.openEvt := by
        intro h
        exact hno (by simp [h])
      have hno2 : WSEvent.openEvt ∉ evs := by
        intro h
        exact hno (by simp [h])
      obtain ⟨ht, hm, ha⟩ := step_no_open_no_schedule s e h5 hat he
      calc (s.run (e :: evs)).totalScheduled
          = ((s.step e).run evs).totalScheduled := rfl
        _ = (s.step e).totalScheduled := ih (s.step e) hm ha hno2
        _ = s.totalScheduled := ht

/-- Concrete instantiation of claim C6: a non-clean close on the fresh
client schedules a reconnect, and from a client that has exhausted its
5 attempts, a further close / fire / reconnect sequence schedules
nothing. -/
theorem C6_close_witness :
    (((WebSocketClient.init.onClose 1006).2).isSome ↔
      1006 ≠ 1000 ∧ WebSocketClient.init.reconnectAttempts < 5) ∧
    (({ WebSocketClient.init with reconnectAttempts := 5 }.run
        [WSEvent.closeEvt 1006, WSEvent.fireReconnect,
          WSEvent.closeEvt 1011]).totalScheduled =
      ({ WebSocketClient.init with
          reconnectAttempts := 5 } : WebSocketClient).totalScheduled) :=
  ⟨C6_close_schedules_iff.1 WebSocketClient.init 1006 rfl,
    C6_close_schedules_iff.2 _ _ rfl (by decide) (by decide)⟩

/-! ### Claim C7 -/

/-- Claim C7: a frame that is not valid JSON is dropped (no handler
invoked; the `JSON.parse` exception is caught by the `try/catch` and
does not propagate — recorded by the `true` flag); a `pong` envelope
and an envelope whose type has zero registered handlers are dropped
with no handler invocation and no exception; an envelope whose type
names an `Object.prototype` property also has zero registered handlers
and is dropped with no handler invocation (the dispatch `TypeError` is
caught inside `onMessage` and does not propagate); and each frame of
the stream is processed independently, so none of this affects
subsequent frames. -/
theorem C7_frame_dropping {D : Type} :
    (∀ (hs : Handlers D) (raw : String),
        onMessage hs (RawFrame.malformed raw) = ([], true)) ∧
    (∀ (hs : Handlers D) (d : D),
        onMessage hs (RawFrame.parsed "pong" d) = ([], false)) ∧
    (∀ (hs : Handlers D) (t : String) (d : D),
        (hs.lookup t = none ∨
          hs.lookup t = some (HandlersProp.ownArray [])) →
        onMessage hs (RawFrame.parsed t d) = ([], false)) ∧
    (∀ (hs : Handlers D) (t : String) (d : D),
        hs.lookup t = some HandlersProp.protoProp →
        onMessage hs (RawFrame.parsed t d) = ([], true)) ∧
    (∀ (hs : Handlers D) (f : RawFrame D) (fs : List (RawFrame D)),
        processFrames hs (f :: fs) =
          onMessage hs f :: processFrames hs fs) := by
  refine ⟨fun hs raw => rfl, fun hs d => rfl, ?_, ?_, fun hs f fs => rfl⟩
  · intro hs t d hz
    by_cases hp : t = "pong"
    · simp [onMessage, hp]
    · rcases hz with hz | hz <;> simp [onMessage, hp, hz, runHandlers]
  · intro hs t d hz
    have hp : ¬t = "pong" := by
      intro hc
      subst hc
      simp [Handlers.lookup, objectPrototypeKeys] at hz
    simp [onMessage, hp, hz]

/-- Concrete instantiation of claim C7: the zero-handler cases at an
unrecognized type and at a registered type whose handler array is
empty, and the caught-`TypeError` case at a prototype-inherited
name. -/
theorem C7_frame_witness :
    onMessage (Handlers.init Nat) (RawFrame.parsed "surge_alert" 3) =
      ([], false) ∧
    onMessage (Handlers.init Nat) (RawFrame.parsed "driver_updates" 3) =
      ([], false) ∧
    onMessage (Handlers.init Nat) (RawFrame.parsed "valueOf" 3) =
      ([], true) :=
  ⟨(@C7_frame_dropping Nat).2.2.1 (Handlers.init Nat) "surge_alert" 3
      (Or.inl rfl),
    (@C7_frame_dropping Nat).2.2.1 (Handlers.init Nat) "driver_updates" 3
      (Or.inr rfl),
    (@C7_frame_dropping Nat).2.2.2.1 (Handlers.init Nat) "valueOf" 3
      rfl⟩

/-! ### Claim C8 -/

/-- Claim C8: the top-N-by-demand projection sorts the zones descending
by `demand_level` with a stable sort and takes the first N.
Concretely, over `[A:3, B:9, C:9]` with N = 2 it returns `[B, C]` (the
tie between B and C is broken by their original order, and A is
excluded).  In general the output is sorted descending, the full sort
is a permutation of the input whose tie classes keep their original
relative order (stability: filtering the sorted list to any fixed
demand level gives exactly the input's entries of that level in input
order), and the output length is `min N (number of zones)`.  The
projection is a pure function of the input, hence deterministic. -/
theorem C8_topN_by_demand :
    (topNZonesByDemand 2
        [⟨"A", 3, false⟩, ⟨"B", 9, false⟩, ⟨"C", 9, false⟩] =
      [⟨"B", 9, false⟩, ⟨"C", 9, false⟩]) ∧
    (∀ (n : Nat) (zs : List Zone),
        (topNZonesByDemand n zs).Sorted demandDesc) ∧
    (∀ zs : List Zone, (sortByDemandDesc zs).Perm zs) ∧
    (∀ (zs : List Zone) (v : Int),
        (sortByDemandDesc zs).filter
            (fun z => decide (z.demand_level = v)) =
          zs.filter (fun z => decide (z.demand_level = v))) ∧
    (∀ (n : Nat) (zs : List Zone),
        (topNZonesByDemand n zs).length = min n zs.length) := by
  refine ⟨by decide, ?_, ?_, ?_, ?_⟩
  · intro n zs
    exact List.Pairwise.sublist (List.take_sublist n _)
      (List.sorted_insertionSort demandDesc zs)
  · intro zs
    exact List.perm_insertionSort demandDesc zs
  · intro zs v
    have hmem : ∀ a ∈ zs.filter (fun z => decide (z.demand_level = v)),
        a.demand_level = v := by
      intro a ha
      have := (List.mem_filter.mp ha).2
      simpa using this
    have hpair : (zs.filter
        (fun z => decide (z.demand_level = v))).Pairwise demandDesc := by
      refine List.pairwise_of_forall_mem_list ?_
      intro a ha b hb
      unfold demandDesc
      rw [hmem a ha, hmem b hb]
    have h1 : List.Sublist
        (zs.filter (fun z => decide (z.demand_level = v)))
        (sortByDemandDesc zs) :=
      List.sublist_insertionSort hpair (List.filter_sublist zs)
    have h2 : List.Perm
        ((sortByDemandDesc zs).filter
          (fun z => decide (z.demand_level = v)))
        (zs.filter (fun z => decide (z.demand_level = v))) :=
      (List.perm_insertionSort demandDesc zs).filter _
    have hfix : (zs.filter (fun z => decide (z.demand_level = v))).filter
        (fun z => decide (z.demand_level = v)) =
        zs.filter (fun z => decide (z.demand_level = v)) :=
      List.filter_eq_self.mpr (fun a ha => by simp [hmem a ha])
    have h3 : List.Sublist
        (zs.filter (fun z => decide (z.demand_level = v)))
        ((sortByDemandDesc zs).filter
          (fun z => decide (z.demand_level = v))) := by
      have := h1.filter (fun z => decide (z.demand_level = v))
      rwa [hfix] at this
    exact (h3.eq_of_length h2.length_eq.symm).symm
  · intro n zs
    rw [topNZonesByDemand, List.length_take, sortByDemandDesc,
      List.length_insertionSort]

/-! ### Claim C9 -/

/-- Claim C9: the active-filter projection retains exactly the requests
whose status lies in `['pending', 'accepted', 'in_progress']` — over
statuses `[pending, completed, accepted]` it returns the pending and
accepted entries — and, being a `filter`, it preserves the original
relative order of the retained requests (the output is a sublist of the
input). -/
theorem C9_active_filter :
    (filterActiveRequests
        [⟨"r1", "pending", 0⟩, ⟨"r2", "completed", 1⟩,
          ⟨"r3", "accepted", 2⟩] =
      [⟨"r1", "pending", 0⟩, ⟨"r3", "accepted", 2⟩]) ∧
    (∀ rs : List Request, (filterActiveRequests rs).Sublist rs) ∧
    (∀ (rs : List Request) (r : Request),
        r ∈ filterActiveRequests rs ↔
          r ∈ rs ∧ r.status ∈ activeStatuses) := by
  refine ⟨by decide, fun rs => List.filter_sublist rs, ?_⟩
  intro rs r
  simp [filterActiveRequests, List.mem_filter, isActiveStatus]

/-! ### Claim C10 -/

/-- Claim C10 as stated is false on the code: the JS `in` operator
consults the prototype chain, so for `type = "toString"` — a type
outside the fixed set `driver_updates` / `zone_updates` /
`request_updates` — the guard `type in this.handlers` succeeds, and
`this.handlers["toString"].push(handler)` calls `.push` on the
inherited `Object.prototype.toString` function, which is `undefined`:
`addMessageHandler` throws an uncaught `TypeError` instead of silently
ignoring the registration. -/
theorem C10_counterexample :
    "toString" ∉ ["driver_updates", "zone_updates", "request_updates"] ∧
    Handlers.addMessageHandler (Handlers.init Nat) "toString"
      ⟨0, fun _ => true⟩ = Except.error "TypeError" := by
  exact ⟨by decide, rfl⟩

/-- Claim C10 (amended): for every message type outside the fixed
handler-key set AND outside the property names inherited from
`Object.prototype`, `addMessageHandler` leaves the handler registry
unchanged without raising, and a subsequently arriving frame of that
type invokes no handler.  For a type that names an `Object.prototype`
property (`toString`, `valueOf`, `hasOwnProperty`, ...), the `in` guard
succeeds and the attempted `.push` on the inherited non-array property
throws an uncaught `TypeError` out of `addMessageHandler`, leaving the
registry unchanged; a frame of such a type still invokes no handler
(its dispatch `TypeError` is caught inside `onMessage`). -/
theorem C10_amended_theorem {D : Type} :
    ∀ (hs : Handlers D) (t : String) (h : MessageHandler D),
      t ∉ ["driver_updates", "zone_updates", "request_updates"] →
      (t ∉ objectPrototypeKeys →
        hs.addMessageHandler t h = Except.ok hs ∧
        ∀ d : D, onMessage hs (RawFrame.parsed t d) = ([], false)) ∧
      (t ∈ objectPrototypeKeys →
        hs.addMessageHandler t h = Except.error "TypeError" ∧
        ∀ d : D, onMessage hs (RawFrame.parsed t d) = ([], true)) := by
  intro hs t h ht
  have h1 : t ≠ "driver_updates" := by intro hc; exact ht (by simp [hc])
  have h2 : t ≠ "zone_updates" := by intro hc; exact ht (by simp [hc])
  have h3 : t ≠ "request_updates" := by intro hc; exact ht (by simp [hc])
  constructor
  · intro hproto
    constructor
    · simp [Handlers.addMessageHandler, h1, h2, h3, hproto]
    · intro d
      by_cases hp : t = "pong"
      · simp [onMessage, hp]
      · simp [onMessage, hp, Handlers.lookup, h1, h2, h3, hproto]
  · intro hproto
    have hp : ¬t = "pong" := by
      intro hc
      rw [hc] at hproto
      exact absurd hproto (by decide)
    constructor
    · simp [Handlers.addMessageHandler, h1, h2, h3, hproto]
    · intro d
      simp [onMessage, hp, Handlers.lookup, h1, h2, h3, hproto]

/-- Concrete instantiation of the amended claim C10, at the unknown
type `surge_updates` (silently ignored, no handler ever invoked) and
at the prototype-inherited name `toString` (registration raises a
`TypeError`; dispatch invokes no handler). -/
theorem C10_amended_witness :
    (Handlers.addMessageHandler (Handlers.init Nat) "surge_updates"
        ⟨0, fun _ => true⟩ = Except.ok (Handlers.init Nat) ∧
      onMessage (Handlers.init Nat)
        (RawFrame.parsed "surge_updates" (7 : Nat)) = ([], false)) ∧
    (Handlers.addMessageHandler (Handlers.init Nat) "toString"
        ⟨1, fun _ => true⟩ = Except.error "TypeError" ∧
      onMessage (Handlers.init Nat)
        (RawFrame.parsed "toString" (7 : Nat)) = ([], true)) :=
  ⟨⟨((C10_amended_theorem (Handlers.init Nat) "surge_updates"
        ⟨0, fun _ => true⟩ (by decide)).1 (by decide)).1,
      ((C10_amended_theorem (Handlers.init Nat) "surge_updates"
        ⟨0, fun _ => true⟩ (by decide)).1 (by decide)).2 7⟩,
    ⟨((C10_amended_theorem (Handlers.init Nat) "toString"
        ⟨1, fun _ => true⟩ (by decide)).2 (by decide)).1,
      ((C10_amended_theorem (Handlers.init Nat) "toString"
        ⟨1, fun _ => true⟩ (by decide)).2 (by decide)).2 7⟩⟩

end SmartZone
